import Mathlib

/-!
Shallow embedding of `src/backend-server.js` (RDW Sound System catalog backend).

The server keeps two JSON files: `products.json` (an array of product records)
and `stats.json` (an object with a `visits` counter).  Every handler reads the
relevant file, possibly mutates the parsed value, writes it back in full and
returns an HTTP response.  We model a file as `Option` of its parsed contents:
`none` stands for an absent file or one whose contents fail to parse (the
`try`/`catch` in `loadProducts`/`loadStats` collapses both cases into the
dataset default).  JavaScript field values are modelled by `JsValue`, so that
truthiness checks (`!name || ...`) keep their JavaScript semantics.
-/

namespace RdwBackend

/-- A JavaScript value as it can appear in a parsed JSON request body
(numbers are modelled as integers; the server never does arithmetic on the
content fields, only truthiness checks). -/
inductive JsValue where
  | undef
  | nullV
  | num (n : Int)
  | str (s : String)
  | boolean (b : Bool)
  deriving DecidableEq

/-- JavaScript truthiness: `undefined`, `null`, `0`, `""` and `false` are
falsy, everything else is truthy.  This is what `!name` etc. test in the
handlers. -/
def truthy : JsValue → Bool
  | JsValue.undef => false
  | JsValue.nullV => false
  | JsValue.num n => n != 0
  | JsValue.str s => s != ""
  | JsValue.boolean b => b

/-- The destructured request body `const { name, description, image, alt } =
req.body`: a field that is absent from the JSON body destructures to
`undefined`, which `JsValue.undef` covers. -/
structure ReqBody where
  name : JsValue
  description : JsValue
  image : JsValue
  alt : JsValue
  deriving DecidableEq

/-- A product record as stored in `products.json`.  `id` is `none` when the
record has no (or an undefined) `id` field; `generateProductId` treats that
case as `0` via `p.id || 0`. -/
structure Product where
  id : Option Int
  name : JsValue
  description : JsValue
  image : JsValue
  alt : JsValue
  deriving DecidableEq

/-- The stats record stored in `stats.json`; `visits` is `none` when the
field is absent/undefined, which `(stats.visits || 0)` treats as `0`. -/
structure Stats where
  visits : Option Int
  deriving DecidableEq

/-- The persistent state of the server: the parsed contents of the two JSON
files, `none` meaning absent-or-unparsable. -/
structure State where
  productsFile : Option (List Product)
  statsFile : Option Stats
  deriving DecidableEq

/-- `loadProducts` (lines 37-44): read and parse `products.json`; on any
failure (missing file, parse error) return the empty array. -/
def loadProducts (file : Option (List Product)) : List Product :=
  file.getD []

/-- `loadStats` (lines 52-59): read and parse `stats.json`; on any failure
return `{ visits: 0 }`. -/
def loadStats (file : Option Stats) : Stats :=
  file.getD { visits := some 0 }

/-- `generateProductId` (lines 67-70):
`products.reduce((max, p) => Math.max(max, p.id || 0), 0) + 1`. -/
def generateProductId (products : List Product) : Int :=
  products.foldl (fun m p => max m (p.id.getD 0)) 0 + 1

/-- `products.findIndex(p => p.id === productId)` from the update and delete
handlers, returning `none` instead of `-1` when no record matches.  Strict
equality `p.id === productId` holds exactly when the record has a numeric id
equal to `productId`. -/
def findProductIndex (products : List Product) (productId : Int) : Option Nat :=
  match products with
  | [] => none
  | p :: rest =>
    if p.id = some productId then some 0
    else (findProductIndex rest productId).map (· + 1)

/-- Response bodies the six routes can produce. -/
inductive JsonBody where
  | products (items : List Product)
  | product (item : Product)
  | error (msg : String)
  | message (msg : String)
  | visits (count : Int)
  | stats (value : Stats)
  deriving DecidableEq

/-- An HTTP response: `res.json(x)` is status 200, `res.status(c).json(x)`
is status `c`. -/
structure HttpResponse where
  status : Nat
  body : JsonBody
  deriving DecidableEq

def errMissingFields : String := "Missing required fields"

def errProductNotFound : String := "Product not found"

def msgProductDeleted : String := "Product deleted"

/-- The record built at lines 89-95: `{ id: generateProductId(products),
name, description, image, alt }`. -/
def newProductFor (body : ReqBody) (products : List Product) : Product :=
  { id := some (generateProductId products), name := body.name,
    description := body.description, image := body.image, alt := body.alt }

/-- The record built at line 111: `{ id: productId, name, description,
image, alt }`. -/
def updatedProductFor (productId : Int) (body : ReqBody) : Product :=
  { id := some productId, name := body.name, description := body.description,
    image := body.image, alt := body.alt }

/-- `GET /api/products` (lines 77-80). -/
def getProductsHandler (s : State) : HttpResponse × State :=
  ({ status := 200, body := JsonBody.products (loadProducts s.productsFile) }, s)

/-- `POST /api/products` (lines 83-99). -/
def postProductHandler (body : ReqBody) (s : State) : HttpResponse × State :=
  if !truthy body.name || !truthy body.description
      || !truthy body.image || !truthy body.alt then
    ({ status := 400, body := JsonBody.error errMissingFields }, s)
  else
    let products := loadProducts s.productsFile
    let newProduct := newProductFor body products
    ({ status := 201, body := JsonBody.product newProduct },
     { s with productsFile := some (products ++ [newProduct]) })

/-- `PUT /api/products/:id` (lines 102-114); `productId` is the parsed
integer path parameter. -/
def putProductHandler (productId : Int) (body : ReqBody) (s : State) :
    HttpResponse × State :=
  if !truthy body.name || !truthy body.description
      || !truthy body.image || !truthy body.alt then
    ({ status := 400, body := JsonBody.error errMissingFields }, s)
  else
    let products := loadProducts s.productsFile
    match findProductIndex products productId with
    | none => ({ status := 404, body := JsonBody.error errProductNotFound }, s)
    | some productIndex =>
      let updated := updatedProductFor productId body
      ({ status := 200, body := JsonBody.product updated },
       { s with productsFile := some (products.set productIndex updated) })

/-- `DELETE /api/products/:id` (lines 117-125); `splice(productIndex, 1)`
removes exactly the matched record. -/
def deleteProductHandler (productId : Int) (s : State) : HttpResponse × State :=
  let products := loadProducts s.productsFile
  match findProductIndex products productId with
  | none => ({ status := 404, body := JsonBody.error errProductNotFound }, s)
  | some productIndex =>
    ({ status := 200, body := JsonBody.message msgProductDeleted },
     { s with productsFile := some (products.eraseIdx productIndex) })

/-- `POST /api/stats/visit` (lines 128-133):
`stats.visits = (stats.visits || 0) + 1; saveStats(stats)`. -/
def postVisitHandler (s : State) : HttpResponse × State :=
  let stats := loadStats s.statsFile
  let newVisits := stats.visits.getD 0 + 1
  ({ status := 200, body := JsonBody.visits newVisits },
   { s with statsFile := some { visits := some newVisits } })

/-- `GET /api/stats` (lines 136-139). -/
def getStatsHandler (s : State) : HttpResponse × State :=
  ({ status := 200, body := JsonBody.stats (loadStats s.statsFile) }, s)

/-- The state of a fresh environment: neither JSON file exists. -/
def freshState : State :=
  { productsFile := none, statsFile := none }

/-- The maximum id observed across a product sequence, a missing/undefined
id counting as 0 (and 0 when the sequence is empty).  Phrased from the spec
of the ID allocator, to be compared with `generateProductId`. -/
def maxObservedId (products : List Product) : Int :=
  (products.map (fun p => p.id.getD 0)).foldr max 0

/-- Uniqueness of ids in a stored collection (the spec invariant): no two
records share an `id` field. -/
def uniqueIds (products : List Product) : Prop :=
  (products.map Product.id).Nodup

instance (products : List Product) : Decidable (uniqueIds products) :=
  inferInstanceAs (Decidable ((products.map Product.id).Nodup))

/-- `n` successive calls of `POST /api/stats/visit`, threading the state. -/
def iterateVisits : Nat → State → State
  | 0, s => s
  | n + 1, s => iterateVisits n (postVisitHandler s).2

/-- The visit counter currently recorded in the stats file (0 if the file or
the field is absent). -/
def visitsOf (s : State) : Int :=
  (loadStats s.statsFile).visits.getD 0

/-- `n` successive calls of `GET /api/stats`, threading the state. -/
def iterateGetStats : Nat → State → State
  | 0, s => s
  | n + 1, s => iterateGetStats n (getStatsHandler s).2

/-- A request body with all four fields truthy, used to instantiate the
theorems at concrete inputs. -/
def sampleBody : ReqBody :=
  { name := JsValue.num 1, description := JsValue.num 2,
    image := JsValue.num 3, alt := JsValue.num 4 }

/-- A request body whose `name` field destructures to `undefined`. -/
def badBody : ReqBody :=
  { name := JsValue.undef, description := JsValue.num 2,
    image := JsValue.num 3, alt := JsValue.num 4 }

/-- A stored product with id 2. -/
def sampleProduct : Product :=
  { id := some 2, name := JsValue.num 5, description := JsValue.num 6,
    image := JsValue.num 7, alt := JsValue.num 8 }

/-- A state whose products file holds exactly `sampleProduct`. -/
def sampleState : State :=
  { productsFile := some [sampleProduct], statsFile := none }

/-! ### Helper lemmas -/

theorem foldl_max_eq (l : List Product) :
    ∀ a : Int, 0 ≤ a →
      l.foldl (fun m p => max m (p.id.getD 0)) a = max a (maxObservedId l) := by
  induction l with
  | nil =>
    intro a ha
    simp only [List.foldl_nil, maxObservedId, List.map_nil, List.foldr_nil]
    exact (max_eq_left ha).symm
  | cons p rest ih =>
    intro a ha
    simp only [List.foldl_cons, maxObservedId, List.map_cons, List.foldr_cons]
    rw [ih (max a (p.id.getD 0)) (le_trans ha (le_max_left _ _)), max_assoc]
    rfl

theorem maxObservedId_nonneg (l : List Product) : 0 ≤ maxObservedId l := by
  induction l with
  | nil => simp [maxObservedId]
  | cons p rest ih =>
    simp only [maxObservedId, List.map_cons, List.foldr_cons]
    exact le_trans ih (le_max_right _ _)

theorem generateProductId_eq (l : List Product) :
    generateProductId l = maxObservedId l + 1 := by
  unfold generateProductId
  rw [foldl_max_eq l 0 le_rfl, max_eq_right (maxObservedId_nonneg l)]

theorem le_maxObservedId (l : List Product) (p : Product) (hp : p ∈ l) :
    p.id.getD 0 ≤ maxObservedId l := by
  induction l with
  | nil => cases hp
  | cons q rest ih =>
    simp only [maxObservedId, List.map_cons, List.foldr_cons]
    rcases List.mem_cons.mp hp with h | h
    · subst h; exact le_max_left _ _
    · exact le_trans (ih h) (le_max_right _ _)

theorem maxObservedId_attained (l : List Product) :
    maxObservedId l = 0 ∨ ∃ p ∈ l, p.id.getD 0 = maxObservedId l := by
  induction l with
  | nil => left; simp [maxObservedId]
  | cons q rest ih =>
    have hcons : maxObservedId (q :: rest)
        = max (q.id.getD 0) (maxObservedId rest) := rfl
    rcases max_choice (q.id.getD 0) (maxObservedId rest) with h | h
    · right; exact ⟨q, List.mem_cons_self q rest, by rw [hcons, h]⟩
    · rcases ih with h0 | ⟨p, hp, hpe⟩
      · left; rw [hcons, h, h0]
      · right; exact ⟨p, List.mem_cons_of_mem q hp, by rw [hcons, h, hpe]⟩

theorem id_ne_generated (l : List Product) (p : Product) (hp : p ∈ l) :
    p.id ≠ some (generateProductId l) := by
  cases hid : p.id with
  | none => simp
  | some k =>
    intro hk
    have hk2 : k = generateProductId l := by
      simpa using hk
    have hle : k ≤ maxObservedId l := by
      have := le_maxObservedId l p hp
      rwa [hid, Option.getD_some] at this
    rw [generateProductId_eq] at hk2
    omega

theorem findProductIndex_eq_none_iff (l : List Product) (pid : Int) :
    findProductIndex l pid = none ↔ ∀ p ∈ l, p.id ≠ some pid := by
  induction l with
  | nil => simp [findProductIndex]
  | cons q rest ih =>
    simp only [findProductIndex]
    by_cases hq : q.id = some pid
    · simp [hq]
    · simp [hq, ih, List.forall_mem_cons]

theorem findProductIndex_mem (l : List Product) (pid : Int) (i : Nat)
    (h : findProductIndex l pid = some i) :
    ∃ q, l[i]? = some q ∧ q.id = some pid := by
  induction l generalizing i with
  | nil => simp [findProductIndex] at h
  | cons p rest ih =>
    simp only [findProductIndex] at h
    by_cases hp : p.id = some pid
    · simp only [hp, if_pos, Option.some_inj] at h
      subst h
      exact ⟨p, by simp, hp⟩
    · rw [if_neg hp, Option.map_eq_some'] at h
      obtain ⟨j, hj, hji⟩ := h
      obtain ⟨q, hq, hqid⟩ := ih j hj
      subst hji
      exact ⟨q, by simpa using hq, hqid⟩

theorem set_getElem?_self {α : Type} (l : List α) (i : Nat) (a : α)
    (h : l[i]? = some a) : l.set i a = l := by
  induction l generalizing i with
  | nil => simp at h
  | cons x xs ih =>
    cases i with
    | zero =>
      simp only [List.getElem?_cons_zero, Option.some_inj] at h
      simp [h]
    | succ j =>
      simp only [List.getElem?_cons_succ] at h
      simp [List.set, ih j h]

theorem guard_false_of_truthy (body : ReqBody)
    (h1 : truthy body.name = true) (h2 : truthy body.description = true)
    (h3 : truthy body.image = true) (h4 : truthy body.alt = true) :
    (!truthy body.name || !truthy body.description
      || !truthy body.image || !truthy body.alt) = false := by
  simp [h1, h2, h3, h4]

theorem guard_true_of_not_all (body : ReqBody)
    (h : (truthy body.name && truthy body.description && truthy body.image
        && truthy body.alt) = false) :
    (!truthy body.name || !truthy body.description
      || !truthy body.image || !truthy body.alt) = true := by
  revert h
  cases truthy body.name <;> cases truthy body.description
    <;> cases truthy body.image <;> cases truthy body.alt <;> simp

theorem uniqueIds_append_new (l : List Product) (body : ReqBody)
    (h : uniqueIds l) : uniqueIds (l ++ [newProductFor body l]) := by
  unfold uniqueIds at h ⊢
  rw [List.map_append, List.nodup_append]
  refine ⟨h, List.nodup_singleton _, ?_⟩
  intro x hx hx2
  simp only [List.map_cons, List.map_nil, List.mem_singleton] at hx2
  obtain ⟨p, hp, rfl⟩ := List.mem_map.mp hx
  exact id_ne_generated l p hp (by rw [hx2]; rfl)

theorem uniqueIds_set_same_id (l : List Product) (productId : Int) (body : ReqBody)
    (i : Nat) (hfind : findProductIndex l productId = some i)
    (h : uniqueIds l) : uniqueIds (l.set i (updatedProductFor productId body)) := by
  obtain ⟨q, hq, hqid⟩ := findProductIndex_mem l productId i hfind
  unfold uniqueIds at h ⊢
  rw [List.map_set]
  have hmap : (l.map Product.id)[i]? = some (updatedProductFor productId body).id := by
    rw [List.getElem?_map, hq]
    simp [updatedProductFor, hqid]
  rw [set_getElem?_self _ _ _ hmap]
  exact h

theorem uniqueIds_eraseIdx (l : List Product) (i : Nat) (h : uniqueIds l) :
    uniqueIds (l.eraseIdx i) :=
  List.Nodup.sublist (List.Sublist.map Product.id (List.eraseIdx_sublist l i)) h

/-! ### Claim theorems -/

/-- Claim C1: when all four fields are truthy, `POST /api/products` appends
`{id, name, description, image, alt}` with the allocator's id to the loaded
collection, saves it, and returns the created record with status 201; a
subsequent `GET /api/products` lists the prior collection plus exactly that
one record, whose id is one more than the previous maximum id (1 on an
empty collection, since `maxObservedId [] = 0`). -/
theorem create_success_appends_next_id (body : ReqBody) (s : State)
    (h1 : truthy body.name = true) (h2 : truthy body.description = true)
    (h3 : truthy body.image = true) (h4 : truthy body.alt = true) :
    postProductHandler body s =
      ({ status := 201,
         body := JsonBody.product (newProductFor body (loadProducts s.productsFile)) },
       { productsFile :=
          some (loadProducts s.productsFile
            ++ [newProductFor body (loadProducts s.productsFile)]),
         statsFile := s.statsFile }) ∧
    (getProductsHandler (postProductHandler body s).2).1.body =
      JsonBody.products (loadProducts s.productsFile
        ++ [newProductFor body (loadProducts s.productsFile)]) ∧
    (newProductFor body (loadProducts s.productsFile)).id =
      some (maxObservedId (loadProducts s.productsFile) + 1) ∧
    maxObservedId [] = 0 := by
  have hg := guard_false_of_truthy body h1 h2 h3 h4
  refine ⟨?_, ?_, ?_, by simp [maxObservedId]⟩
  · simp [postProductHandler, hg]
  · simp [postProductHandler, hg, getProductsHandler, loadProducts]
  · simp [newProductFor, generateProductId_eq]

/-- Claim C2: if any of the four fields is absent or falsy, both
`POST /api/products` and `PUT /api/products/:id` answer 400
"Missing required fields" and leave the stored state untouched. -/
theorem validation_failure_no_write (body : ReqBody) (s : State) (productId : Int)
    (h : (truthy body.name && truthy body.description && truthy body.image
        && truthy body.alt) = false) :
    postProductHandler body s
        = ({ status := 400, body := JsonBody.error errMissingFields }, s) ∧
    putProductHandler productId body s
        = ({ status := 400, body := JsonBody.error errMissingFields }, s) := by
  have hg := guard_true_of_not_all body h
  exact ⟨by simp [postProductHandler, hg], by simp [putProductHandler, hg]⟩

/-- Claim C5: the ID allocator returns the maximum id observed across the
sequence (a missing/undefined id counting as 0, and the scan starting from
0) plus one, hence 1 on the empty sequence; the returned value strictly
dominates every observed id. -/
theorem allocator_returns_max_plus_one (l : List Product) :
    generateProductId l = maxObservedId l + 1 ∧
    generateProductId [] = 1 ∧
    (∀ p ∈ l, p.id.getD 0 ≤ maxObservedId l) ∧
    (maxObservedId l = 0 ∨ ∃ p ∈ l, p.id.getD 0 = maxObservedId l) := by
  refine ⟨generateProductId_eq l, by simp [generateProductId], ?_, ?_⟩
  · intro p hp; exact le_maxObservedId l p hp
  · exact maxObservedId_attained l

/-- Claim C7: loading an absent or unparsable file yields the dataset
default (`[]` for products, `{visits: 0}` for stats), so on a fresh
environment `GET /api/products` answers the empty array and
`GET /api/stats` answers `{visits: 0}`, neither failing. -/
theorem load_defaults_on_missing_file :
    loadProducts none = [] ∧
    loadStats none = { visits := some 0 } ∧
    getProductsHandler freshState
        = ({ status := 200, body := JsonBody.products [] }, freshState) ∧
    getStatsHandler freshState
        = ({ status := 200, body := JsonBody.stats { visits := some 0 } }, freshState) :=
  ⟨rfl, rfl, rfl, rfl⟩

/-- Claim C3: if no stored product carries the requested id, a fully valid
`PUT /api/products/:id` and a `DELETE /api/products/:id` both answer 404
"Product not found" and leave the stored state untouched (no save). -/
theorem notfound_leaves_state_unchanged (productId : Int) (body : ReqBody) (s : State)
    (h1 : truthy body.name = true) (h2 : truthy body.description = true)
    (h3 : truthy body.image = true) (h4 : truthy body.alt = true)
    (habs : ∀ p ∈ loadProducts s.productsFile, p.id ≠ some productId) :
    putProductHandler productId body s
        = ({ status := 404, body := JsonBody.error errProductNotFound }, s) ∧
    deleteProductHandler productId s
        = ({ status := 404, body := JsonBody.error errProductNotFound }, s) := by
  have hg := guard_false_of_truthy body h1 h2 h3 h4
  have hfind : findProductIndex (loadProducts s.productsFile) productId = none :=
    (findProductIndex_eq_none_iff _ _).2 habs
  exact ⟨by simp [putProductHandler, hg, hfind],
         by simp [deleteProductHandler, hfind]⟩

/-- Claim C4: a valid `PUT /api/products/:id` whose id matches the record at
index `i` replaces exactly that record with `{id, name, description, image,
alt}` — the id taken from the path, not regenerated — saves the collection,
and returns the replacement; length and every other position are unchanged. -/
theorem update_replaces_only_match (productId : Int) (body : ReqBody) (s : State)
    (i : Nat)
    (h1 : truthy body.name = true) (h2 : truthy body.description = true)
    (h3 : truthy body.image = true) (h4 : truthy body.alt = true)
    (hfind : findProductIndex (loadProducts s.productsFile) productId = some i) :
    putProductHandler productId body s =
      ({ status := 200, body := JsonBody.product (updatedProductFor productId body) },
       { productsFile := some ((loadProducts s.productsFile).set i
            (updatedProductFor productId body)),
         statsFile := s.statsFile }) ∧
    (updatedProductFor productId body).id = some productId ∧
    ((loadProducts s.productsFile).set i (updatedProductFor productId body)).length
        = (loadProducts s.productsFile).length ∧
    ∀ j, j ≠ i →
      ((loadProducts s.productsFile).set i (updatedProductFor productId body))[j]?
        = (loadProducts s.productsFile)[j]? := by
  have hg := guard_false_of_truthy body h1 h2 h3 h4
  refine ⟨by simp [putProductHandler, hg, hfind], rfl, List.length_set .., ?_⟩
  intro j hj
  exact List.getElem?_set_ne (Ne.symm hj)

/-- Claim C6: id-uniqueness is an invariant of every mutating route: if the
stored collection has pairwise distinct ids, so does the collection stored
after `POST` (fresh id), `PUT` (id preserved at the matched index) and
`DELETE` (one record removed). -/
theorem mutations_preserve_unique_ids (body : ReqBody) (productId : Int) (s : State)
    (h : uniqueIds (loadProducts s.productsFile)) :
    uniqueIds (loadProducts (postProductHandler body s).2.productsFile) ∧
    uniqueIds (loadProducts (putProductHandler productId body s).2.productsFile) ∧
    uniqueIds (loadProducts (deleteProductHandler productId s).2.productsFile) := by
  refine ⟨?_, ?_, ?_⟩
  · by_cases hg : (!truthy body.name || !truthy body.description
        || !truthy body.image || !truthy body.alt) = true
    · simpa [postProductHandler, hg] using h
    · rw [Bool.not_eq_true] at hg
      simpa [postProductHandler, hg, loadProducts] using
        uniqueIds_append_new (loadProducts s.productsFile) body h
  · by_cases hg : (!truthy body.name || !truthy body.description
        || !truthy body.image || !truthy body.alt) = true
    · simpa [putProductHandler, hg] using h
    · rw [Bool.not_eq_true] at hg
      cases hfind : findProductIndex (loadProducts s.productsFile) productId with
      | none => simpa [putProductHandler, hg, hfind] using h
      | some i =>
        have hres := uniqueIds_set_same_id (loadProducts s.productsFile) productId body i hfind h
        simp only [loadProducts] at hfind hres
        simpa [putProductHandler, hg, hfind, loadProducts] using hres
  · cases hfind : findProductIndex (loadProducts s.productsFile) productId with
    | none => simpa [deleteProductHandler, hfind] using h
    | some i =>
      have hres := uniqueIds_eraseIdx (loadProducts s.productsFile) i h
      simp only [loadProducts] at hfind hres
      simpa [deleteProductHandler, hfind, loadProducts] using hres

/-- Claim C8: one `POST /api/stats/visit` returns the incremented count and
stores it (an absent/undefined counter counting as 0), and `n` sequential
calls add exactly `n` to the stored counter. -/
theorem record_visit_adds_n (s : State) (n : Nat) :
    (postVisitHandler s).1
        = { status := 200, body := JsonBody.visits (visitsOf s + 1) } ∧
    visitsOf (postVisitHandler s).2 = visitsOf s + 1 ∧
    visitsOf (iterateVisits n s) = visitsOf s + n := by
  refine ⟨by simp [postVisitHandler, visitsOf], by simp [postVisitHandler, visitsOf, loadStats], ?_⟩
  induction n generalizing s with
  | zero => simp [iterateVisits]
  | succ m ih =>
    have hstep : visitsOf (postVisitHandler s).2 = visitsOf s + 1 := by
      simp [postVisitHandler, visitsOf, loadStats]
    have : iterateVisits (m + 1) s = iterateVisits m (postVisitHandler s).2 := rfl
    rw [this, ih, hstep]
    push_cast
    ring

/-- Claim C9: `GET /api/stats` is read-only and idempotent: it never changes
the state, so any number of repeated calls leaves the stored stats unchanged
and each call returns the same response. -/
theorem get_stats_idempotent_readonly (s : State) (n : Nat) :
    (getStatsHandler s).2 = s ∧
    iterateGetStats n s = s ∧
    (getStatsHandler (iterateGetStats n s)).1 = (getStatsHandler s).1 := by
  have hiter : ∀ m t, iterateGetStats m t = t := by
    intro m
    induction m with
    | zero => intro t; rfl
    | succ k ih => intro t; exact ih t
  exact ⟨rfl, hiter n s, by rw [hiter n s]⟩

/-- Claim C10: in `PUT /api/products/:id` the field check precedes the
lookup: a request that both misses a field and targets an absent id gets the
400 validation answer, never 404, and the handler neither reads the store
(the same 400 comes back whatever state it is run on) nor writes it. -/
theorem update_validates_before_lookup (productId : Int) (body : ReqBody) (s : State)
    (hmiss : (truthy body.name && truthy body.description && truthy body.image
        && truthy body.alt) = false)
    (_habs : ∀ p ∈ loadProducts s.productsFile, p.id ≠ some productId) :
    putProductHandler productId body s
        = ({ status := 400, body := JsonBody.error errMissingFields }, s) ∧
    (putProductHandler productId body s).1.status ≠ 404 ∧
    ∀ t : State, putProductHandler productId body t
        = ({ status := 400, body := JsonBody.error errMissingFields }, t) := by
  have hg := guard_true_of_not_all body hmiss
  refine ⟨by simp [putProductHandler, hg], ?_, fun t => by simp [putProductHandler, hg]⟩
  simp [putProductHandler, hg]

/-- Witness for C1: the theorem applied to a concrete valid body and the
fresh state. -/
theorem create_success_witness :
    truthy sampleBody.name = true ∧ truthy sampleBody.description = true ∧
    truthy sampleBody.image = true ∧ truthy sampleBody.alt = true ∧
    (postProductHandler sampleBody freshState =
      ({ status := 201,
         body := JsonBody.product
          (newProductFor sampleBody (loadProducts freshState.productsFile)) },
       { productsFile :=
          some (loadProducts freshState.productsFile
            ++ [newProductFor sampleBody (loadProducts freshState.productsFile)]),
         statsFile := freshState.statsFile }) ∧
    (getProductsHandler (postProductHandler sampleBody freshState).2).1.body =
      JsonBody.products (loadProducts freshState.productsFile
        ++ [newProductFor sampleBody (loadProducts freshState.productsFile)]) ∧
    (newProductFor sampleBody (loadProducts freshState.productsFile)).id =
      some (maxObservedId (loadProducts freshState.productsFile) + 1) ∧
    maxObservedId [] = 0) :=
  ⟨by decide, by decide, by decide, by decide,
   create_success_appends_next_id sampleBody freshState
     (by decide) (by decide) (by decide) (by decide)⟩

/-- Witness for C2: the theorem applied to a body with an undefined `name`. -/
theorem validation_failure_witness :
    (truthy badBody.name && truthy badBody.description && truthy badBody.image
        && truthy badBody.alt) = false ∧
    (postProductHandler badBody sampleState
        = ({ status := 400, body := JsonBody.error errMissingFields }, sampleState) ∧
    putProductHandler 1 badBody sampleState
        = ({ status := 400, body := JsonBody.error errMissingFields }, sampleState)) :=
  ⟨by decide, validation_failure_no_write badBody sampleState 1 (by decide)⟩

/-- Witness for C3: the theorem applied to id 1, absent from a state storing
only a product with id 2. -/
theorem notfound_witness :
    truthy sampleBody.name = true ∧ truthy sampleBody.description = true ∧
    truthy sampleBody.image = true ∧ truthy sampleBody.alt = true ∧
    (∀ p ∈ loadProducts sampleState.productsFile, p.id ≠ some 1) ∧
    (putProductHandler 1 sampleBody sampleState
        = ({ status := 404, body := JsonBody.error errProductNotFound }, sampleState) ∧
    deleteProductHandler 1 sampleState
        = ({ status := 404, body := JsonBody.error errProductNotFound }, sampleState)) :=
  ⟨by decide, by decide, by decide, by decide, by decide,
   notfound_leaves_state_unchanged 1 sampleBody sampleState
     (by decide) (by decide) (by decide) (by decide) (by decide)⟩

/-- Witness for C4: the theorem applied to id 2, found at index 0 of the
stored collection. -/
theorem update_replaces_witness :
    truthy sampleBody.name = true ∧ truthy sampleBody.description = true ∧
    truthy sampleBody.image = true ∧ truthy sampleBody.alt = true ∧
    findProductIndex (loadProducts sampleState.productsFile) 2 = some 0 ∧
    (putProductHandler 2 sampleBody sampleState =
      ({ status := 200, body := JsonBody.product (updatedProductFor 2 sampleBody) },
       { productsFile := some ((loadProducts sampleState.productsFile).set 0
            (updatedProductFor 2 sampleBody)),
         statsFile := sampleState.statsFile }) ∧
    (updatedProductFor 2 sampleBody).id = some 2 ∧
    ((loadProducts sampleState.productsFile).set 0 (updatedProductFor 2 sampleBody)).length
        = (loadProducts sampleState.productsFile).length ∧
    ∀ j, j ≠ 0 →
      ((loadProducts sampleState.productsFile).set 0 (updatedProductFor 2 sampleBody))[j]?
        = (loadProducts sampleState.productsFile)[j]?) :=
  ⟨by decide, by decide, by decide, by decide, by decide,
   update_replaces_only_match 2 sampleBody sampleState 0
     (by decide) (by decide) (by decide) (by decide) (by decide)⟩

/-- Witness for C6: the theorem applied to the unique-id state storing one
product. -/
theorem unique_ids_witness :
    uniqueIds (loadProducts sampleState.productsFile) ∧
    (uniqueIds (loadProducts (postProductHandler sampleBody sampleState).2.productsFile) ∧
    uniqueIds (loadProducts (putProductHandler 2 sampleBody sampleState).2.productsFile) ∧
    uniqueIds (loadProducts (deleteProductHandler 2 sampleState).2.productsFile)) :=
  ⟨by decide, mutations_preserve_unique_ids sampleBody 2 sampleState (by decide)⟩

/-- Witness for C10: the theorem applied to a body with an undefined `name`
and an id absent from the store. -/
theorem validates_before_lookup_witness :
    (truthy badBody.name && truthy badBody.description && truthy badBody.image
        && truthy badBody.alt) = false ∧
    (∀ p ∈ loadProducts sampleState.productsFile, p.id ≠ some 1) ∧
    (putProductHandler 1 badBody sampleState
        = ({ status := 400, body := JsonBody.error errMissingFields }, sampleState) ∧
    (putProductHandler 1 badBody sampleState).1.status ≠ 404 ∧
    ∀ t : State, putProductHandler 1 badBody t
        = ({ status := 400, body := JsonBody.error errMissingFields }, t)) :=
  ⟨by decide, by decide,
   update_validates_before_lookup 1 badBody sampleState (by decide) (by decide)⟩

end RdwBackend
